import Mathlib

/-!
Verification of `validate_deployment.py`: a pre-flight validator that scans a
Terraform plan for high-risk Azure resources, synthesizes a minimal ARM
template per resource, submits it to the ARM deployment-validate endpoint,
and aggregates per-resource failures into a pass/fail verdict.

The embedding mirrors the Python source: dictionaries become association
lists over a small JSON value type, `dict.get` with and without defaults is
modelled exactly, exceptions become `Except`, and the module-level loop is
an explicit fold over the plan's resource-change list.  The network call is
abstracted by passing in the HTTP response a POST to the validate endpoint
would yield, since `run_arm_validate` in the source is a pure function of
that response once the request is sent.
-/

namespace ValidateDeployment

/-- JSON-like values as they occur in the Terraform plan and in the templates
the script builds: strings, arrays, objects (Python dicts, kept as ordered
association lists to preserve insertion order), and `null` (Python `None`). -/
inductive Json where
  | str : String → Json
  | arr : List Json → Json
  | obj : List (String × Json) → Json
  | null : Json

/-- Python `d.get(k)` on an association list: value of the first matching key. -/
def dictGet (m : List (String × Json)) (k : String) : Option Json :=
  (m.find? (fun p => p.1 == k)).map (fun p => p.2)

/-- Python `d.get(k, default)`. -/
def dictGetD (m : List (String × Json)) (k : String) (d : Json) : Json :=
  (dictGet m k).getD d

/-- Python `d.get(k)` with its implicit `None` default. -/
def dictGetN (m : List (String × Json)) (k : String) : Json :=
  dictGetD m k .null

/-- Python `d[k] = v` on a dict: overwrite the existing key in place, or
append a fresh key at the end (Python dicts preserve insertion order). -/
def dictSet (m : List (String × Json)) (k : String) (v : Json) :
    List (String × Json) :=
  if m.any (fun p => p.1 == k) then
    m.map (fun p => if p.1 == k then (k, v) else p)
  else
    m ++ [(k, v)]

/-- Python truthiness for the values above: `None`, `""`, `[]`, `{}` are
falsy, everything else is truthy. -/
def truthy : Json → Bool
  | .null => false
  | .str s => !s.isEmpty
  | .arr l => !l.isEmpty
  | .obj m => !m.isEmpty

/-- Python `a or b`: `a` when truthy, else `b`. -/
def pyOr (a b : Json) : Json :=
  if truthy a then a else b

/-- Key lookup on a `Json` value, `none` for non-objects. -/
def objGet (j : Json) (k : String) : Option Json :=
  match j with
  | .obj m => dictGet m k
  | _ => none

/-- The keys of an object, in order; `[]` for non-objects. -/
def objKeys : Json → List String
  | .obj m => m.map (fun p => p.1)
  | _ => []

/-- `HIGH_RISK_RESOURCES` from the source: the resource types to pre-flight. -/
def HIGH_RISK_RESOURCES : List String :=
  ["azurerm_firewall", "azurerm_application_gateway", "azurerm_lb",
   "azurerm_bastion_host"]

/-- `VALID_ACTIONS` from the source. -/
def VALID_ACTIONS : List String := ["create", "update"]

/-- The `change` object of a plan entry: `actions` (list of operation names;
an absent key reads as `[]` via `.get("actions", [])`, so a plain list
suffices) and `after` (the desired post-change attribute mapping; `none`
models it being absent or JSON `null`, both of which make the source's
`resource["change"]["after"].get(...)` raise). -/
structure Change where
  actions : List String
  after : Option (List (String × Json))

/-- One entry of the plan's `resource_changes` list. -/
structure PlanResource where
  address : String
  type : String
  change : Change

/-- The in-scope test from the loop at line 154 of the source:
`resource["type"] in HIGH_RISK_RESOURCES and actions.intersection(VALID_ACTIONS)`. -/
def isInScope (r : PlanResource) : Bool :=
  HIGH_RISK_RESOURCES.contains r.type &&
    r.change.actions.any (fun a => VALID_ACTIONS.contains a)

/-- The exceptions `generate_arm_template` can raise: the explicit
`ValueError(f"Unknown resource type ...")` for an unmatched type, and the
`KeyError`/`AttributeError` from `resource["change"]["after"].get(...)`
when `after` is absent or null. -/
inductive SynthError where
  | unsupportedKind : String → SynthError
  | missingAfter : SynthError
deriving DecidableEq

/-- The name derivation at lines 34–35:
`address.replace(".", "-").replace("[", "-").replace("]", "")`.
All three patterns are single characters and none of the replacements
re-introduces a later pattern, so the three sequential passes equal one
character-wise pass. -/
def normalizeAddress (address : String) : String :=
  String.mk (address.toList.foldr
    (fun c acc =>
      match c with
      | '.' => '-' :: acc
      | '[' => '-' :: acc
      | ']' => acc
      | _ => c :: acc) [])

/-- `generate_arm_template` (lines 28–70): builds the minimal ARM template
for one resource, mirroring the source's dict construction and its
statement order (`after` is dereferenced for `location` at line 36, before
the type dispatch at line 53). -/
def generate_arm_template (r : PlanResource) : Except SynthError Json :=
  let res_name := normalizeAddress r.address
  match r.change.after with
  | none => .error .missingAfter
  | some after =>
    let location := dictGetD after "location" (.str "eastus")
    let base : List (String × Json) :=
      [("type", .null), ("apiVersion", .str "2022-08-01"),
       ("name", .str res_name), ("location", location)]
    let wrap := fun (res : List (String × Json)) =>
      Json.obj
        [("$schema",
          .str "https://schema.management.azure.com/schemas/2019-04-01/deploymentTemplate.json#"),
         ("contentVersion", .str "1.0.0.0"),
         ("resources", .arr [.obj res])]
    if r.type = "azurerm_firewall" then
      let sku := dictGetD after "sku_name" (.str "AZFW_VNet")
      .ok (wrap (dictSet
        (dictSet base "type" (.str "Microsoft.Network/azureFirewalls"))
        "sku" (.obj [("name", sku), ("tier", .str "Standard")])))
    else if r.type = "azurerm_application_gateway" then
      let sku_name := dictGetD after "sku_name" (.str "WAF_v2")
      .ok (wrap (dictSet
        (dictSet base "type" (.str "Microsoft.Network/applicationGateways"))
        "sku" (.obj [("name", sku_name), ("tier", .str "WAF")])))
    else if r.type = "azurerm_lb" then
      let sku_name := dictGetD after "sku" (.str "Standard")
      .ok (wrap (dictSet
        (dictSet base "type" (.str "Microsoft.Network/loadBalancers"))
        "sku" (.obj [("name", sku_name)])))
    else if r.type = "azurerm_bastion_host" then
      .ok (wrap (dictSet base "type" (.str "Microsoft.Network/bastionHosts")))
    else
      .error (.unsupportedKind r.type)

/-- The HTTP response to the POST of `run_arm_validate` (line 135):
status code and decoded JSON body. -/
structure HttpResponse where
  statusCode : Nat
  body : Json

/-- `run_arm_validate`, lines 136–143, as a function of the response the
POST returns: status 200 yields success; ANY other status is treated as a
validation failure whose message is the body's `error` member (the whole
body when that key is absent).  The Python message is `json.dumps(error,
indent=2)`; the model returns the JSON value being dumped. -/
def run_arm_validate (resp : HttpResponse) : Bool × Json :=
  if resp.statusCode == 200 then
    (true, .str "Validation succeeded")
  else
    (false, (objGet resp.body "error").getD resp.body)

/-- One entry of the `errors` list (lines 170–176): the source appends a
formatted block interpolating exactly these five pieces; `zones` holds the
displayed value `zones if zones else 'none'`. -/
structure FailureRecord where
  address : String
  location : Json
  sku : Json
  zones : Json
  errorDetail : Json

/-- `template["resources"][0]["location"]` (line 156). -/
def templateLocation (t : Json) : Json :=
  (match objGet t "resources" with
   | some (.arr (res :: _)) => objGet res "location"
   | _ => none).getD .null

/-- The body of the loop at lines 152–176 for one in-scope resource, after
`generate_arm_template` succeeded: the diagnostic context (lines 156–160)
and the failure record appended when validation fails.  `client` maps the
template to the HTTP response its POST yields. -/
def processOne (client : Json → HttpResponse) (r : PlanResource) (t : Json) :
    List FailureRecord :=
  let location := templateLocation t
  let after := r.change.after.getD []
  let zones := dictGetD after "zones" (.arr [])
  let sku := pyOr (pyOr (dictGetN after "sku_name") (dictGetN after "sku"))
    (.str "unknown")
  let verdict := run_arm_validate (client t)
  if verdict.1 then []
  else [{ address := r.address, location := location, sku := sku,
          zones := if truthy zones then zones else .str "none",
          errorDetail := verdict.2 }]

/-- The loop at lines 152–176: accumulates `errors` in plan order and counts
the validate calls issued; an exception from `generate_arm_template`
propagates and aborts the whole run, which `Except.error` models. -/
def processResources (client : Json → HttpResponse) :
    List PlanResource → Except SynthError (List FailureRecord × Nat)
  | [] => .ok ([], 0)
  | r :: rs =>
    if isInScope r then
      match generate_arm_template r with
      | .error e => .error e
      | .ok t =>
        match processResources client rs with
        | .error e => .error e
        | .ok (errs, calls) => .ok (processOne client r t ++ errs, calls + 1)
    else
      processResources client rs

/-- The outcome of a whole run: the accumulated failure records, the number
of validate calls issued, and the process completion signal (lines 178–184:
`sys.exit(1)` when `errors` is non-empty, implicit exit 0 otherwise). -/
structure RunResult where
  errors : List FailureRecord
  validateCalls : Nat
  exitCode : Nat

/-- The whole orchestration (lines 150–184). -/
def runPreflight (client : Json → HttpResponse) (plan : List PlanResource) :
    Except SynthError RunResult :=
  match processResources client plan with
  | .error e => .error e
  | .ok (errs, calls) =>
    .ok { errors := errs, validateCalls := calls,
          exitCode := if errs.isEmpty then 0 else 1 }

/-- The minimal key set of the synthesized resource entry per kind, as laid
out in the spec's kind rules (schema markers aside): type, apiVersion, name,
location, plus a `sku` block for every kind except the bastion host. -/
def minimalResourceKeys (kind : String) : List String :=
  if kind = "azurerm_bastion_host" then
    ["type", "apiVersion", "name", "location"]
  else
    ["type", "apiVersion", "name", "location", "sku"]

/-- The minimal key set of the `sku` block per kind: the load balancer rule
sets only a name, the firewall and application gateway rules a name and a
tier. -/
def minimalSkuKeys (kind : String) : List String :=
  if kind = "azurerm_lb" then ["name"] else ["name", "tier"]

/-- The spec's description of the failure sequence, stated independently of
the loop: one diagnostic block per in-scope resource whose validation call
failed, in the plan's original order. -/
def specFailureBlocks (client : Json → HttpResponse)
    (plan : List PlanResource) : List FailureRecord :=
  plan.flatMap (fun r =>
    if isInScope r then
      match generate_arm_template r with
      | .ok t => processOne client r t
      | .error _ => []
    else [])

/-- The firewall record of the spec's scenario: action `create`,
`after = {"location": "westus", "sku_name": "AZFW_Hub"}`. -/
def fwScenario : PlanResource :=
  { address := "azurerm_firewall.example",
    type := "azurerm_firewall",
    change := { actions := ["create"],
                after := some [("location", .str "westus"),
                               ("sku_name", .str "AZFW_Hub")] } }

/-- The resource kinds matched by the dispatch chain of
`generate_arm_template` (lines 53–66), in source order. -/
def supportedKinds : List String :=
  ["azurerm_firewall", "azurerm_application_gateway", "azurerm_lb",
   "azurerm_bastion_host"]

/-- Field `k` of `template["resources"][0]`. -/
def templateField (t : Json) (k : String) : Option Json :=
  match objGet t "resources" with
  | some (.arr (res :: _)) => objGet res k
  | _ => none

/-- The template `generate_arm_template` produces for `fwScenario`. -/
def fwTemplate : Json :=
  .obj
    [("$schema",
      .str "https://schema.management.azure.com/schemas/2019-04-01/deploymentTemplate.json#"),
     ("contentVersion", .str "1.0.0.0"),
     ("resources", .arr
       [.obj [("type", .str "Microsoft.Network/azureFirewalls"),
              ("apiVersion", .str "2022-08-01"),
              ("name", .str "azurerm_firewall-example"),
              ("location", .str "westus"),
              ("sku", .obj [("name", .str "AZFW_Hub"),
                            ("tier", .str "Standard")])]])]

/-- A load balancer being deleted: the spec's third scenario, out of scope. -/
def lbDeleteScenario : PlanResource :=
  { address := "azurerm_lb.gone",
    type := "azurerm_lb",
    change := { actions := ["delete"], after := none } }

/-- A bastion host whose `after` mapping is present but has no `location`. -/
def bastionNoLocation : PlanResource :=
  { address := "azurerm_bastion_host.b",
    type := "azurerm_bastion_host",
    change := { actions := ["create"], after := some [] } }

/-- A record with a resource type no kind rule matches. -/
def unsupportedRecord : PlanResource :=
  { address := "azurerm_storage_account.sa",
    type := "azurerm_storage_account",
    change := { actions := ["create"], after := some [] } }

/-- A firewall record whose `change.after` is absent/null. -/
def fwNoAfter : PlanResource :=
  { address := "azurerm_firewall.na",
    type := "azurerm_firewall",
    change := { actions := ["create"], after := none } }

/-- An HTTP 401 response: the ARM gateway rejected the bearer token, so no
validation verdict was obtained — a transport/authorization failure. -/
def authFailureResp : HttpResponse :=
  { statusCode := 401,
    body := .obj [("error",
      .obj [("code", .str "AuthenticationFailed"),
            ("message", .str "Authentication failed.")])] }

/-- A genuine provider validation rejection: HTTP 400 with a
`SkuNotAvailable` error body. -/
def skuRejectionResp : HttpResponse :=
  { statusCode := 400,
    body := .obj [("error",
      .obj [("code", .str "SkuNotAvailable"),
            ("message", .str "The requested SKU is not available.")])] }

/-- The validation client as injected for concrete runs below: every POST
yields the 401 authentication failure. -/
def authClient : Json → HttpResponse := fun _ => authFailureResp

/-- The `error` member of the 401 response body. -/
def authErrorPayload : Json :=
  .obj [("code", .str "AuthenticationFailed"),
        ("message", .str "Authentication failed.")]

/-- The `error` member of the SKU rejection body. -/
def skuErrorPayload : Json :=
  .obj [("code", .str "SkuNotAvailable"),
        ("message", .str "The requested SKU is not available.")]

/-- The template `generate_arm_template` produces for `bastionNoLocation`. -/
def bastionTemplate : Json :=
  .obj
    [("$schema",
      .str "https://schema.management.azure.com/schemas/2019-04-01/deploymentTemplate.json#"),
     ("contentVersion", .str "1.0.0.0"),
     ("resources", .arr
       [.obj [("type", .str "Microsoft.Network/bastionHosts"),
              ("apiVersion", .str "2022-08-01"),
              ("name", .str "azurerm_bastion_host-b"),
              ("location", .str "eastus")]])]

/-! ## Helper lemmas about the orchestration loop -/

/-- The failure list the loop accumulates is exactly the per-resource blocks
of `specFailureBlocks`, in plan order. -/
theorem processResources_errors (client : Json → HttpResponse) :
    ∀ (plan : List PlanResource) (errs : List FailureRecord) (calls : Nat),
      processResources client plan = .ok (errs, calls) →
      errs = specFailureBlocks client plan
  | [], errs, calls, h => by
    simp only [processResources, Except.ok.injEq, Prod.mk.injEq] at h
    simp [specFailureBlocks, ← h.1]
  | r :: rs, errs, calls, h => by
    by_cases hs : isInScope r
    · simp only [processResources, hs, if_true] at h
      cases hg : generate_arm_template r with
      | error e => rw [hg] at h; cases h
      | ok t =>
        rw [hg] at h
        cases hp : processResources client rs with
        | error e => rw [hp] at h; cases h
        | ok pr =>
          obtain ⟨errs2, calls2⟩ := pr
          rw [hp] at h
          simp only [Except.ok.injEq, Prod.mk.injEq] at h
          obtain ⟨he, -⟩ := h
          subst he
          rw [processResources_errors client rs errs2 calls2 hp]
          simp [specFailureBlocks, List.flatMap_cons, hs, hg]
    · simp only [Bool.not_eq_true] at hs
      simp only [processResources, hs, Bool.false_eq_true, if_false] at h
      rw [processResources_errors client rs errs calls h]
      simp [specFailureBlocks, List.flatMap_cons, hs]

/-- A plan with no in-scope record is processed without a single validate
call and without a failure. -/
theorem processResources_all_out_of_scope (client : Json → HttpResponse) :
    ∀ plan : List PlanResource, (∀ r ∈ plan, isInScope r = false) →
      processResources client plan = .ok ([], 0)
  | [], _ => rfl
  | r :: rs, h => by
    have hr := h r (List.mem_cons_self ..)
    simp only [processResources, hr, Bool.false_eq_true, if_false]
    exact processResources_all_out_of_scope client rs
      (fun q hq => h q (List.mem_cons_of_mem _ hq))

/-- A loop pass that completed proves every in-scope record of the plan was
synthesized successfully: a synthesis failure always aborts the run. -/
theorem processResources_ok_synth (client : Json → HttpResponse) :
    ∀ (plan : List PlanResource) (out : List FailureRecord × Nat),
      processResources client plan = .ok out →
      ∀ r ∈ plan, isInScope r = true → ∃ t, generate_arm_template r = .ok t
  | [], _, _, r, hr, _ => absurd hr (List.not_mem_nil r)
  | q :: rs, out, h, r, hr, hsc => by
    rcases List.mem_cons.mp hr with rfl | hr2
    · simp only [processResources, hsc, if_true] at h
      cases hg : generate_arm_template r with
      | error e => rw [hg] at h; cases h
      | ok t => exact ⟨t, rfl⟩
    · by_cases hq : isInScope q
      · simp only [processResources, hq, if_true] at h
        cases hg : generate_arm_template q with
        | error e => rw [hg] at h; cases h
        | ok t =>
          rw [hg] at h
          cases hp : processResources client rs with
          | error e => rw [hp] at h; cases h
          | ok pr => exact processResources_ok_synth client rs pr hp r hr2 hsc
      · simp only [Bool.not_eq_true] at hq
        simp only [processResources, hq, Bool.false_eq_true, if_false] at h
        exact processResources_ok_synth client rs out h r hr2 hsc

/-! ## The claims -/

/-- C1 (counterexample): the claim fails on the code.  An HTTP 401 — a
transport/authorization failure where no validation verdict was obtained —
receives from `run_arm_validate` exactly the same verdict flag as a genuine
`SkuNotAvailable` rejection, and the orchestrator records it in the failure
sequence as an ordinary validation failure with no distinguishing
diagnostic beyond the raw payload. -/
theorem C1_counterexample :
    run_arm_validate authFailureResp = (false, authErrorPayload) ∧
    run_arm_validate skuRejectionResp = (false, skuErrorPayload) ∧
    (run_arm_validate authFailureResp).1 = (run_arm_validate skuRejectionResp).1 ∧
    runPreflight authClient [fwScenario] =
      .ok { errors := [{ address := "azurerm_firewall.example",
                         location := .str "westus", sku := .str "AZFW_Hub",
                         zones := .str "none", errorDetail := authErrorPayload }],
            validateCalls := 1, exitCode := 1 } :=
  ⟨rfl, rfl, rfl, rfl⟩

/-- C1 (amended): the validation call does not classify failures by class:
any non-200 response — transport/authorization failures included — is
recorded in the failure sequence exactly like a provider validation
rejection, as one block whose only diagnostic is the error payload of the
response body. -/
theorem C1_non200_uniformly_recorded (client : Json → HttpResponse)
    (r : PlanResource) (t : Json) (rs : List PlanResource)
    (errs : List FailureRecord) (calls : Nat)
    (hsc : isInScope r = true)
    (hg : generate_arm_template r = .ok t)
    (hc : (client t).statusCode ≠ 200)
    (hrs : processResources client rs = .ok (errs, calls)) :
    (processOne client r t).map (fun e => e.errorDetail) =
      [(objGet (client t).body "error").getD (client t).body] ∧
    processResources client (r :: rs) =
      .ok (processOne client r t ++ errs, calls + 1) := by
  have hb : ((client t).statusCode == 200) = false := by simpa using hc
  constructor
  · simp [processOne, run_arm_validate, hb]
  · simp [processResources, hsc, hg, hrs]

/-- Witness for C1 (amended) at the firewall scenario under the 401 client. -/
theorem C1_non200_uniformly_recorded_witness :
    (processOne authClient fwScenario fwTemplate).map (fun e => e.errorDetail) =
      [(objGet (authClient fwTemplate).body "error").getD (authClient fwTemplate).body] ∧
    processResources authClient [fwScenario] =
      .ok (processOne authClient fwScenario fwTemplate ++ [], 0 + 1) :=
  C1_non200_uniformly_recorded authClient fwScenario fwTemplate [] [] 0
    rfl rfl (by decide) rfl

/-- C2: on the plan record of the firewall scenario — action `create`,
after mapping with location `westus` and sku_name `AZFW_Hub` — the
synthesizer emits a descriptor of type `Microsoft.Network/azureFirewalls`,
location `westus`, sku name `AZFW_Hub` and sku tier `Standard`. -/
theorem C2_firewall_scenario :
    generate_arm_template fwScenario = .ok fwTemplate ∧
    templateField fwTemplate "type" =
      some (.str "Microsoft.Network/azureFirewalls") ∧
    templateField fwTemplate "location" = some (.str "westus") ∧
    (templateField fwTemplate "sku").bind (fun s => objGet s "name") =
      some (.str "AZFW_Hub") ∧
    (templateField fwTemplate "sku").bind (fun s => objGet s "tier") =
      some (.str "Standard") :=
  ⟨rfl, rfl, rfl, rfl, rfl⟩

/-- C3: a record is in scope iff its type belongs to the high-risk set and
its actions meet {create, update}; a record not in scope is skipped by the
loop without a synthesis or a validation call. -/
theorem C3_scope_iff (r : PlanResource) :
    (isInScope r = true ↔
      r.type ∈ HIGH_RISK_RESOURCES ∧
        ∃ a ∈ r.change.actions, a ∈ VALID_ACTIONS) ∧
    (∀ (client : Json → HttpResponse) (rs : List PlanResource),
      isInScope r = false →
      processResources client (r :: rs) = processResources client rs) := by
  constructor
  · simp [isInScope]
  · intro client rs h
    simp [processResources, h]

/-- Witness for C3: the delete-only load balancer is out of scope and its
presence leaves the run untouched. -/
theorem C3_scope_iff_witness :
    isInScope lbDeleteScenario = false ∧
    processResources authClient [lbDeleteScenario] = .ok ([], 0) := by
  refine ⟨rfl, ?_⟩
  rw [(C3_scope_iff lbDeleteScenario).2 authClient [] rfl]
  rfl

/-- C4: a run that completes passes iff its failure sequence is empty: the
completion signal is 0 exactly on an empty failure sequence and 1
otherwise, and the sequence consists of one block per failed resource
(address, location, SKU, zones, error detail) in plan order. -/
theorem C4_pass_iff_no_failures (client : Json → HttpResponse)
    (plan : List PlanResource) (res : RunResult)
    (h : runPreflight client plan = .ok res) :
    (res.exitCode = 0 ↔ res.errors = []) ∧
    (res.errors ≠ [] → res.exitCode = 1) ∧
    res.errors = specFailureBlocks client plan := by
  unfold runPreflight at h
  cases hp : processResources client plan with
  | error e => rw [hp] at h; cases h
  | ok pr =>
    obtain ⟨errs, calls⟩ := pr
    rw [hp] at h
    cases h
    refine ⟨?_, ?_, processResources_errors client plan errs calls hp⟩
    · cases errs with
      | nil => simp
      | cons e es => simp
    · cases errs with
      | nil => exact fun hne => absurd rfl hne
      | cons e es => exact fun _ => rfl

/-- Witness for C4: the failing firewall run under the 401 client. -/
theorem C4_pass_iff_no_failures_witness :
    ((RunResult.mk [{ address := "azurerm_firewall.example",
                      location := .str "westus", sku := .str "AZFW_Hub",
                      zones := .str "none",
                      errorDetail := authErrorPayload }] 1 1).exitCode = 0 ↔
      (RunResult.mk [{ address := "azurerm_firewall.example",
                       location := .str "westus", sku := .str "AZFW_Hub",
                       zones := .str "none",
                       errorDetail := authErrorPayload }] 1 1).errors = []) ∧
    ((RunResult.mk [{ address := "azurerm_firewall.example",
                      location := .str "westus", sku := .str "AZFW_Hub",
                      zones := .str "none",
                      errorDetail := authErrorPayload }] 1 1).errors ≠ [] →
      (RunResult.mk [{ address := "azurerm_firewall.example",
                       location := .str "westus", sku := .str "AZFW_Hub",
                       zones := .str "none",
                       errorDetail := authErrorPayload }] 1 1).exitCode = 1) ∧
    (RunResult.mk [{ address := "azurerm_firewall.example",
                     location := .str "westus", sku := .str "AZFW_Hub",
                     zones := .str "none",
                     errorDetail := authErrorPayload }] 1 1).errors =
      specFailureBlocks authClient [fwScenario] :=
  C4_pass_iff_no_failures authClient [fwScenario] _ rfl

/-- C5: a record of a kind no rule matches never yields a descriptor; with
its after mapping present the failure is the explicit unsupported-kind
error, and any synthesis failure of a selected record aborts the whole run
(a completed run proves every in-scope record synthesized). -/
theorem C5_unsupported_kind (r : PlanResource) (h : r.type ∉ supportedKinds) :
    (∀ t, generate_arm_template r ≠ .ok t) ∧
    (∀ m, r.change.after = some m →
      generate_arm_template r = .error (.unsupportedKind r.type)) ∧
    (∀ (client : Json → HttpResponse) (plan : List PlanResource)
        (out : List FailureRecord × Nat),
      processResources client plan = .ok out →
      ∀ q ∈ plan, isInScope q = true → ∃ t, generate_arm_template q = .ok t) := by
  simp only [supportedKinds, List.mem_cons, List.not_mem_nil] at h
  push_neg at h
  obtain ⟨h1, h2, h3, h4, -⟩ := h
  refine ⟨?_, ?_, processResources_ok_synth⟩
  · intro t
    cases hA : r.change.after with
    | none => simp [generate_arm_template, hA]
    | some m => simp [generate_arm_template, hA, h1, h2, h3, h4]
  · intro m hA
    simp [generate_arm_template, hA, h1, h2, h3, h4]

/-- Witness for C5: an unsupported storage-account record. -/
theorem C5_unsupported_kind_witness :
    generate_arm_template unsupportedRecord =
      .error (.unsupportedKind "azurerm_storage_account") :=
  (C5_unsupported_kind unsupportedRecord (by decide)).2.1 [] rfl

/-- C6: a synthesized descriptor carries only the minimal fields of the
kind rule: the template object holds exactly the schema marker, the
version marker and one resource; the resource holds exactly type,
apiVersion, name, location and — outside the bastion rule — a sku block,
whose own keys are exactly those the rule sets. -/
theorem C6_minimal_descriptor (r : PlanResource) (t : Json)
    (h : generate_arm_template r = .ok t) :
    objKeys t = ["$schema", "contentVersion", "resources"] ∧
    ∃ res, objGet t "resources" = some (.arr [res]) ∧
      objKeys res = minimalResourceKeys r.type ∧
      (∀ s, objGet res "sku" = some s → objKeys s = minimalSkuKeys r.type) := by
  cases hA : r.change.after with
  | none => simp [generate_arm_template, hA] at h
  | some m =>
    simp only [generate_arm_template, hA] at h
    split_ifs at h with h1 h2 h3 h4
    · cases h
      rw [h1]
      exact ⟨rfl, _, rfl, rfl, fun s hs => by cases hs; rfl⟩
    · cases h
      rw [h2]
      exact ⟨rfl, _, rfl, rfl, fun s hs => by cases hs; rfl⟩
    · cases h
      rw [h3]
      exact ⟨rfl, _, rfl, rfl, fun s hs => by cases hs; rfl⟩
    · cases h
      rw [h4]
      exact ⟨rfl, _, rfl, rfl, fun s hs => nomatch hs⟩

/-- Witness for C6 at the firewall scenario. -/
theorem C6_minimal_descriptor_witness :
    generate_arm_template fwScenario = .ok fwTemplate ∧
    objKeys fwTemplate = ["$schema", "contentVersion", "resources"] :=
  ⟨rfl, (C6_minimal_descriptor fwScenario fwTemplate rfl).1⟩

/-- C7: with the after mapping present, the location of the descriptor is
the after location when that attribute exists and the fixed fallback
`eastus` when it is absent — synthesis succeeds either way. -/
theorem C7_location_defaulting (r : PlanResource) (m : List (String × Json))
    (t : Json) (hA : r.change.after = some m)
    (h : generate_arm_template r = .ok t) :
    (dictGet m "location" = none →
      templateField t "location" = some (.str "eastus")) ∧
    (∀ v, dictGet m "location" = some v →
      templateField t "location" = some v) := by
  have key : templateField t "location" =
      some (dictGetD m "location" (.str "eastus")) := by
    simp only [generate_arm_template, hA] at h
    split_ifs at h with h1 h2 h3 h4 <;> cases h <;> rfl
  constructor
  · intro hn
    rw [key]
    simp [dictGetD, hn]
  · intro v hv
    rw [key]
    simp [dictGetD, hv]

/-- Witness for C7: a bastion record without a location attribute resolves
to the fallback region, and the firewall scenario keeps `westus`. -/
theorem C7_location_defaulting_witness :
    templateField bastionTemplate "location" = some (.str "eastus") ∧
    templateField fwTemplate "location" = some (.str "westus") :=
  ⟨(C7_location_defaulting bastionNoLocation [] bastionTemplate rfl rfl).1 rfl,
   (C7_location_defaulting fwScenario
      [("location", .str "westus"), ("sku_name", .str "AZFW_Hub")]
      fwTemplate rfl rfl).2 (.str "westus") rfl⟩

/-- C8: a plan with zero in-scope records runs to an empty failure
sequence, a zero completion signal, and zero validation calls. -/
theorem C8_vacuous_pass (client : Json → HttpResponse)
    (plan : List PlanResource) (h : ∀ r ∈ plan, isInScope r = false) :
    runPreflight client plan =
      .ok { errors := [], validateCalls := 0, exitCode := 0 } := by
  unfold runPreflight
  rw [processResources_all_out_of_scope client plan h]
  rfl

/-- Witness for C8: the plan holding only the delete-only load balancer. -/
theorem C8_vacuous_pass_witness :
    runPreflight authClient [lbDeleteScenario] =
      .ok { errors := [], validateCalls := 0, exitCode := 0 } :=
  C8_vacuous_pass authClient [lbDeleteScenario]
    (by
      intro r hr
      rw [List.mem_singleton] at hr
      subst hr
      rfl)

/-- C9: the dispatch of the synthesizer covers exactly the classifier set:
the kind list of the dispatch equals `HIGH_RISK_RESOURCES`, a record whose
type is in that set never reaches the unsupported-kind error, and with its
after mapping present it synthesizes successfully. -/
theorem C9_dispatch_covers (r : PlanResource)
    (h : r.type ∈ HIGH_RISK_RESOURCES) :
    supportedKinds = HIGH_RISK_RESOURCES ∧
    (∀ s, generate_arm_template r ≠ .error (.unsupportedKind s)) ∧
    (∀ m, r.change.after = some m → ∃ t, generate_arm_template r = .ok t) := by
  simp only [HIGH_RISK_RESOURCES, List.mem_cons, List.not_mem_nil, or_false] at h
  refine ⟨rfl, ?_, ?_⟩
  · intro s
    cases hA : r.change.after with
    | none => simp [generate_arm_template, hA]
    | some m =>
      rcases h with h | h | h | h <;> simp [generate_arm_template, hA, h]
  · intro m hA
    rcases h with h | h | h | h <;> simp [generate_arm_template, hA, h]

/-- Witness for C9: the bastion record synthesizes and cannot hit the
unsupported-kind error. -/
theorem C9_dispatch_covers_witness :
    generate_arm_template bastionNoLocation = .ok bastionTemplate ∧
    generate_arm_template bastionNoLocation ≠
      .error (.unsupportedKind "azurerm_bastion_host") :=
  ⟨rfl, (C9_dispatch_covers bastionNoLocation (by decide)).2.1
    "azurerm_bastion_host"⟩

/-- C10: synthesis dereferences the after mapping before any defaulting:
when after is absent or null the synthesizer fails with the missing-after
error, and that error never occurs once after is a present mapping. -/
theorem C10_after_required (r : PlanResource) :
    (r.change.after = none → generate_arm_template r = .error .missingAfter) ∧
    (∀ m, r.change.after = some m →
      generate_arm_template r ≠ .error .missingAfter) := by
  constructor
  · intro h
    simp [generate_arm_template, h]
  · intro m hA
    simp only [generate_arm_template, hA]
    split_ifs <;> simp

/-- Witness for C10: the firewall record without an after mapping. -/
theorem C10_after_required_witness :
    generate_arm_template fwNoAfter = .error .missingAfter :=
  (C10_after_required fwNoAfter).1 rfl

end ValidateDeployment
